import Mathlib

/-!
Verification of the `QueryBuilder` fluent query-construction layer
(`src/query/queryBuilder.ts` in the original repository; provided here as
`src/unnamed/part_000`).

The embedding models JavaScript documents as ordered association lists of
string keys and `Value`s (JS objects preserve insertion order; assigning an
existing key updates it in place, assigning a new key appends it).  Builder
methods become pure state transformers on `BuilderState`; the asynchronous
terminal operations (`count`, `explain`, `execute`, `executeOne`) are modelled
with an explicit distinction between a collaborator call that throws
synchronously and one that returns a promise which later resolves or rejects,
because the source returns the collaborator's promise from inside `try`
without `await`, so a `catch` block only sees synchronous throws.
-/

set_option autoImplicit false

namespace Mongrid

/-- A JavaScript/BSON-ish runtime value, as far as the query builder
manipulates them.  Numbers are modelled as integers (no claim involves
floating point). -/
inductive Value where
  | vNull : Value
  | vBool (b : Bool) : Value
  | vInt (n : Int) : Value
  | vStr (s : String) : Value
  | vRegex (pattern : String) : Value
  | vArr (elems : List Value) : Value
  | vDoc (fields : List (String × Value)) : Value
deriving Repr

/-- A JS object: an insertion-ordered list of key/value pairs with unique
keys (uniqueness is maintained by `setKey`). -/
abbrev Doc := List (String × Value)

/-- Property read `doc[key]`; `none` models `undefined`. -/
def getKey : Doc → String → Option Value
  | [], _ => none
  | (k, v) :: rest, key => if k = key then some v else getKey rest key

/-- Property write `doc[key] = v`: updates an existing key in place
(preserving its position) or appends a new key at the end, exactly as JS
object assignment does. -/
def setKey : Doc → String → Value → Doc
  | [], key, v => [(key, v)]
  | (k, w) :: rest, key, v =>
      if k = key then (key, v) :: rest else (k, w) :: setKey rest key v

/-- JS truthiness of a value.  `undefined` (absence) is handled by
`truthyOpt`.  Objects, arrays and regexes are always truthy. -/
def truthy : Value → Bool
  | .vNull => false
  | .vBool b => b
  | .vInt n => n != 0
  | .vStr s => s ≠ ""
  | .vRegex _ => true
  | .vArr _ => true
  | .vDoc _ => true

/-- JS truthiness of a possibly-`undefined` property read. -/
def truthyOpt : Option Value → Bool
  | none => false
  | some v => truthy v

@[simp] theorem getKey_nil (key : String) : getKey [] key = none := rfl

@[simp] theorem getKey_setKey_self (l : Doc) (k : String) (v : Value) :
    getKey (setKey l k v) k = some v := by
  induction l with
  | nil => simp [setKey, getKey]
  | cons hd tl ih =>
      obtain ⟨k', w⟩ := hd
      by_cases h : k' = k <;> simp [setKey, getKey, h, ih]

theorem getKey_setKey_ne (l : Doc) (k key : String) (v : Value)
    (h : k ≠ key) : getKey (setKey l k v) key = getKey l key := by
  induction l with
  | nil => simp [setKey, getKey, h]
  | cons hd tl ih =>
      obtain ⟨k', w⟩ := hd
      by_cases h' : k' = k
      · subst h'
        simp [setKey, getKey, h]
      · simp [setKey, getKey, h']
        split <;> simp [ih]

@[simp] theorem setKey_setKey_self (l : Doc) (k : String) (v w : Value) :
    setKey (setKey l k v) k w = setKey l k w := by
  induction l with
  | nil => simp [setKey]
  | cons hd tl ih =>
      obtain ⟨k', u⟩ := hd
      by_cases h : k' = k <;> simp [setKey, h, ih]

/-- The opaque session handle forwarded to every terminal operation; the
source initialises it to `null` and `setSession` overwrites it. -/
structure BuilderState where
  filter : Doc := []
  options : Doc := []
  populatedFields : List String := []
  session : Value := .vNull
  sort : Doc := []
  projection : Doc := []
  aggregationPipeline : List Value := []
  page : Int := 1
  pageSize : Int := 10

/-- The builder's initial state (all accumulators empty, defaults as in the
class field initialisers). -/
def emptyBuilder : BuilderState := {}

namespace QueryBuilder

/-- The entries of the `mongoOperatorMap` record literal of `where`, in
source order. -/
def opTable : List (String × String) :=
  [("equal", "$eq"), ("notEqual", "$ne"), ("greaterThan", "$gt"),
   ("greaterThanOrEqual", "$gte"), ("lessThan", "$lt"),
   ("lessThanOrEqual", "$lte"), ("in", "$in"), ("notIn", "$nin"),
   ("exists", "$exists"), ("regex", "$regex"), ("text", "$text")]

/-- The record lookup `mongoOperatorMap[operator]`: an unknown key yields
`undefined`, modelled as `none`.  The subsequent truthiness test
`if (mongoOperator)` in the source distinguishes exactly `undefined` from
the tokens (every token is a non-empty, hence truthy, string), so it is
modelled as matching on this `Option`. -/
def mongoOperatorMap (op : String) : Option String :=
  (opTable.find? (fun p => p.1 == op)).map Prod.snd

/-- The operator-specific value shaping performed inside `where`: arrays and
regex patterns pass through unchanged, `text` wraps the value in a
`$search` sub-document, everything else passes through as a scalar. -/
def refineValue (op : String) (value : Value) : Value :=
  if op = "in" ∨ op = "notIn" then value
  else if op = "regex" then value
  else if op = "text" then .vDoc [("$search", value)]
  else value

/-- The `where` method (named `byField` in the specification; `where` is a
reserved word in Lean).  Faithful to the source, including the order of
effects: the field's slot is initialised to an empty sub-document whenever
its current value is falsy, *before* the operator is looked up in
`mongoOperatorMap`; only when the lookup succeeds is the shaped value
assigned under the native token.  Assignment of a named property onto a
non-document value cannot occur through the builder's own methods (they only
ever store documents under filter fields) and is modelled as leaving the
value unchanged. -/
def byField (st : BuilderState) (field op : String) (value : Value) :
    BuilderState :=
  let f1 :=
    if truthyOpt (getKey st.filter field) then st.filter
    else setKey st.filter field (.vDoc [])
  match mongoOperatorMap op with
  | some tok =>
      let refined := refineValue op value
      match getKey f1 field with
      | some (.vDoc sub) =>
          { st with filter := setKey f1 field (.vDoc (setKey sub tok refined)) }
      | _ => { st with filter := f1 }
  | none => { st with filter := f1 }

/-- `whereId(_id)`: direct literal assignment to the `_id` field. -/
def whereId (st : BuilderState) (idValue : Value) : BuilderState :=
  { st with filter := setKey st.filter "_id" idValue }

/-- `and(conditions)`: overwrites the `$and` combinator key. -/
def and (st : BuilderState) (conditions : List Value) : BuilderState :=
  { st with filter := setKey st.filter "$and" (.vArr conditions) }

/-- `or(conditions)`: overwrites the `$or` combinator key. -/
def or (st : BuilderState) (conditions : List Value) : BuilderState :=
  { st with filter := setKey st.filter "$or" (.vArr conditions) }

/-- `not(field, condition)`: assigns `{ $not: condition }` directly as the
field's value, overwriting whatever was there. -/
def not (st : BuilderState) (field : String) (condition : Value) :
    BuilderState :=
  { st with filter := setKey st.filter field (.vDoc [("$not", condition)]) }

/-- `nor(conditions)`: overwrites the `$nor` combinator key. -/
def nor (st : BuilderState) (conditions : List Value) : BuilderState :=
  { st with filter := setKey st.filter "$nor" (.vArr conditions) }

/-- `limit(n)`: sets `options.limit` verbatim. -/
def limit (st : BuilderState) (n : Int) : BuilderState :=
  { st with options := setKey st.options "limit" (.vInt n) }

/-- `skip(n)`: sets `options.skip` verbatim. -/
def skip (st : BuilderState) (n : Int) : BuilderState :=
  { st with options := setKey st.options "skip" (.vInt n) }

/-- `populate(...fields)`: appends to the populated-fields sequence. -/
def populate (st : BuilderState) (fields : List String) : BuilderState :=
  { st with populatedFields := st.populatedFields ++ fields }

/-- `sortBy(sort)`: replaces the sort specification wholesale. -/
def sortBy (st : BuilderState) (s : Doc) : BuilderState :=
  { st with sort := s }

/-- `select(projection)`: replaces the projection wholesale. -/
def select (st : BuilderState) (projection : Doc) : BuilderState :=
  { st with projection := projection }

/-- `aggregate(stage)`: pushes one stage onto the pipeline. -/
def aggregate (st : BuilderState) (stage : Value) : BuilderState :=
  { st with aggregationPipeline := st.aggregationPipeline ++ [stage] }

/-- `paginate(page, pageSize)`: stores page/pageSize and derives
`options.skip = (page - 1) * pageSize` (written first) and
`options.limit = pageSize`. -/
def paginate (st : BuilderState) (page pageSize : Int) : BuilderState :=
  { st with
    page := page
    pageSize := pageSize
    options :=
      setKey (setKey st.options "skip" (.vInt ((page - 1) * pageSize)))
        "limit" (.vInt pageSize) }

/-- `setSession(session)`: attaches the session handle. -/
def setSession (st : BuilderState) (session : Value) : BuilderState :=
  { st with session := session }

end QueryBuilder

/-- Modelled from the spec: the error codes of `ERROR_CODES` come from
`../error/MongridError`, a module of this repository that is not among the
provided sources; the specification's error taxonomy (section 7) names one
kind per terminal operation, so the codes are modelled as three distinct
tags. -/
inductive ErrorCode where
  | COUNT_ERROR : ErrorCode
  | EXPLAIN_ERROR : ErrorCode
  | QUERY_EXECUTION_ERROR : ErrorCode
deriving Repr, DecidableEq

/-- A JavaScript error value as seen by a caller: either an arbitrary error
produced by the external collaborator (`raw`), or a `MongridError` — which,
modelled from the spec's error taxonomy, carries a message, an error code and
a diagnostic context object (the class itself lives in the
`../error/MongridError` module that is not among the provided sources). -/
inductive JsError where
  | raw (message : String) : JsError
  | mongrid (message : String) (code : ErrorCode) (context : Doc) : JsError
deriving Repr

/-- The `.message` property read inside the catch blocks. -/
def JsError.message : JsError → String
  | .raw m => m
  | .mongrid m _ _ => m

/-- The settled outcome of a promise. -/
inductive JsResult (α : Type) where
  | ok (a : α) : JsResult α
  | rejected (e : JsError) : JsResult α
deriving Repr

/-- How a call into the external collaborator behaves.  A `syncThrow` is an
exception raised while the expression itself is evaluated and is caught by an
enclosing `try`; a `promise` is returned to the caller and — because the
source returns it from inside `try` without `await` — its later rejection is
*not* caught by that `try`. -/
inductive CallBehavior (α : Type) where
  | syncThrow (e : JsError) : CallBehavior α
  | promise (r : JsResult α) : CallBehavior α

/-- The external model/collection collaborator, specified only at its
boundary: each field gives the behaviour of one native operation for the
arguments the dispatcher passes it. -/
structure Collab where
  /-- `getCollection().countDocuments(filter, { session })`. -/
  countDocuments : Doc → Value → CallBehavior Int
  /-- `getCollection().find(filter, opts).explain(verbosity)`. -/
  explainCall : Doc → Doc → String → CallBehavior Value
  /-- `getCollection().aggregate(pipeline, { session }).toArray()`. -/
  aggregateToArray : List Value → Value → CallBehavior (List Value)
  /-- `model.find(filter, opts, populatedFields)`. -/
  find : Doc → Doc → List String → CallBehavior (List Value)

namespace QueryBuilder

/-- `count()`: returns the collaborator's promise from inside `try` without
`await`, so only a synchronous throw is wrapped into a `MongridError` with
code `COUNT_ERROR` and context `{ filter }`; a rejected promise is adopted
by the async function unchanged. -/
def count (st : BuilderState) (c : Collab) : JsResult Int :=
  match c.countDocuments st.filter (.vDoc [("session", st.session)]) with
  | .syncThrow e =>
      .rejected (.mongrid ("Count failed: " ++ e.message) .COUNT_ERROR
        [("filter", .vDoc st.filter)])
  | .promise r => r

/-- `explain(verbosity)`: builds a find from the filter and
`{ ...options, session }` and requests its plan.  As in `count`, the promise
is returned without `await`, so only a synchronous throw is wrapped
(code `EXPLAIN_ERROR`, context `{ filter, options }`). -/
def explain (st : BuilderState) (c : Collab)
    (verbosity : String := "queryPlanner") : JsResult Value :=
  match c.explainCall st.filter (setKey st.options "session" st.session)
      verbosity with
  | .syncThrow e =>
      .rejected (.mongrid ("Explain failed: " ++ e.message) .EXPLAIN_ERROR
        [("filter", .vDoc st.filter), ("options", .vDoc st.options)])
  | .promise r => r

/-- The options object `{ ...options, sort, projection, session }` passed to
`model.find` by `execute`. -/
def mergedFindOptions (st : BuilderState) : Doc :=
  setKey
    (setKey (setKey st.options "sort" (.vDoc st.sort)) "projection"
      (.vDoc st.projection))
    "session" st.session

/-- The native operation `execute()` decides to issue: either the
aggregation with its pipeline and session, or the populated find with the
filter, the merged options and the populated fields. -/
inductive Operation where
  | aggregateOp (pipeline : List Value) (session : Value) : Operation
  | findOp (filter : Doc) (options : Doc) (populatedFields : List String) :
      Operation
deriving Repr

/-- The branch decision of `execute()`: a non-empty pipeline takes
precedence; otherwise a find is issued from the accumulated filter,
options and populated fields. -/
def issuedOperation (st : BuilderState) : Operation :=
  if st.aggregationPipeline.length > 0 then
    .aggregateOp st.aggregationPipeline st.session
  else
    .findOp st.filter (mergedFindOptions st) st.populatedFields

/-- `execute()`: if the aggregation pipeline is non-empty, runs it under the
active session; otherwise runs `model.find` with the filter, the merged
options and the populated fields.  Either branch's promise is returned from
inside `try` without `await`, so only a synchronous throw is wrapped
(code `QUERY_EXECUTION_ERROR`, context
`{ filter, options, populatedFields }`). -/
def execute (st : BuilderState) (c : Collab) : JsResult (List Value) :=
  let beh :=
    match issuedOperation st with
    | .aggregateOp pipeline session => c.aggregateToArray pipeline session
    | .findOp f opts pf => c.find f opts pf
  match beh with
  | .syncThrow e =>
      .rejected (.mongrid ("Query execution failed: " ++ e.message)
        .QUERY_EXECUTION_ERROR
        [("filter", .vDoc st.filter), ("options", .vDoc st.options),
         ("populatedFields", .vArr (st.populatedFields.map .vStr))])
  | .promise r => r

/-- `executeOne()`: awaits `execute()` (so here a rejection *is* caught) and
returns `results[0] || null`; a caught rejection is re-wrapped with code
`QUERY_EXECUTION_ERROR` and context `{ filter, options }` — the source's
catch block does not include the populated fields here. -/
def executeOne (st : BuilderState) (c : Collab) : JsResult (Option Value) :=
  match execute st c with
  | .ok results =>
      .ok (match results with
        | [] => none
        | x :: _ => if truthy x then some x else none)
  | .rejected e =>
      .rejected (.mongrid ("Query execution failed: " ++ e.message)
        .QUERY_EXECUTION_ERROR
        [("filter", .vDoc st.filter), ("options", .vDoc st.options)])

end QueryBuilder

/-! ### Helper lemmas about `byField` -/

/-- `byField` with a recognized operator on a field whose slot is unset:
the field is first initialised to an empty sub-document and then the shaped
value is written under the native token. -/
theorem byField_unset (st : BuilderState) (field op tok : String) (v : Value)
    (hop : QueryBuilder.mongoOperatorMap op = some tok)
    (h : getKey st.filter field = none) :
    QueryBuilder.byField st field op v
      = { st with
          filter := setKey st.filter field
            (.vDoc [(tok, QueryBuilder.refineValue op v)]) } := by
  simp [QueryBuilder.byField, truthyOpt, h, hop, setKey]

/-- `byField` with a recognized operator on a field already holding an
operator sub-document merges the new token into that sub-document. -/
theorem byField_doc (st : BuilderState) (field op tok : String) (v : Value)
    (sub : List (String × Value))
    (hop : QueryBuilder.mongoOperatorMap op = some tok)
    (h : getKey st.filter field = some (.vDoc sub)) :
    QueryBuilder.byField st field op v
      = { st with
          filter := setKey st.filter field
            (.vDoc (setKey sub tok (QueryBuilder.refineValue op v))) } := by
  simp [QueryBuilder.byField, truthyOpt, truthy, h, hop]

/-- A successful lookup in `mongoOperatorMap` is an entry of `opTable`. -/
theorem mongoOperatorMap_mem_opTable (a t : String)
    (ha : QueryBuilder.mongoOperatorMap a = some t) :
    (a, t) ∈ QueryBuilder.opTable := by
  unfold QueryBuilder.mongoOperatorMap at ha
  cases hf : QueryBuilder.opTable.find? (fun p => p.1 == a) with
  | none => rw [hf] at ha; exact Option.noConfusion ha
  | some q =>
      rw [hf] at ha
      have hmem : q ∈ QueryBuilder.opTable := List.mem_of_find?_eq_some hf
      have hpred : (q.1 == a) = true := by
        have h2 := List.find?_some hf
        simpa using h2
      have hkey : q.1 = a := eq_of_beq hpred
      have hval : q.2 = t := by
        simpa using ha
      have hq : q = (a, t) := by
        cases q
        simp_all
      rw [← hq]
      exact hmem

/-- The operator dispatch table is injective on the operators it
recognizes: distinct logical operators map to distinct native tokens. -/
theorem mongoOperatorMap_injective (a b t : String)
    (ha : QueryBuilder.mongoOperatorMap a = some t)
    (hb : QueryBuilder.mongoOperatorMap b = some t) : a = b := by
  have key : ∀ p ∈ QueryBuilder.opTable, ∀ q ∈ QueryBuilder.opTable,
      p.2 = q.2 → p.1 = q.1 := by decide
  exact key (a, t) (mongoOperatorMap_mem_opTable a t ha) (b, t)
    (mongoOperatorMap_mem_opTable b t hb) rfl

/-! ### Claim theorems -/

/-- Claim C1: for every supported comparison operator, calling
`byField`/`where` on a field with no prior constraint produces a filter
whose value for that field is a single-key operator sub-document containing
exactly the corresponding native token, with the value shaped per the
operator: the array as-is for `in`/`notIn`, the pattern for `regex`, the
value wrapped as `{ $search: value }` for `text`, and the scalar value
otherwise. -/
theorem C1_byField_operator_tokens (st : BuilderState) (field : String)
    (value : Value) (h : getKey st.filter field = none) :
    (QueryBuilder.byField st field "equal" value).filter
      = setKey st.filter field (.vDoc [("$eq", value)])
    ∧ (QueryBuilder.byField st field "notEqual" value).filter
      = setKey st.filter field (.vDoc [("$ne", value)])
    ∧ (QueryBuilder.byField st field "greaterThan" value).filter
      = setKey st.filter field (.vDoc [("$gt", value)])
    ∧ (QueryBuilder.byField st field "greaterThanOrEqual" value).filter
      = setKey st.filter field (.vDoc [("$gte", value)])
    ∧ (QueryBuilder.byField st field "lessThan" value).filter
      = setKey st.filter field (.vDoc [("$lt", value)])
    ∧ (QueryBuilder.byField st field "lessThanOrEqual" value).filter
      = setKey st.filter field (.vDoc [("$lte", value)])
    ∧ (QueryBuilder.byField st field "in" value).filter
      = setKey st.filter field (.vDoc [("$in", value)])
    ∧ (QueryBuilder.byField st field "notIn" value).filter
      = setKey st.filter field (.vDoc [("$nin", value)])
    ∧ (QueryBuilder.byField st field "exists" value).filter
      = setKey st.filter field (.vDoc [("$exists", value)])
    ∧ (QueryBuilder.byField st field "regex" value).filter
      = setKey st.filter field (.vDoc [("$regex", value)])
    ∧ (QueryBuilder.byField st field "text" value).filter
      = setKey st.filter field
          (.vDoc [("$text", .vDoc [("$search", value)])]) :=
  ⟨congrArg BuilderState.filter (byField_unset st field "equal" "$eq" value rfl h),
   congrArg BuilderState.filter (byField_unset st field "notEqual" "$ne" value rfl h),
   congrArg BuilderState.filter (byField_unset st field "greaterThan" "$gt" value rfl h),
   congrArg BuilderState.filter (byField_unset st field "greaterThanOrEqual" "$gte" value rfl h),
   congrArg BuilderState.filter (byField_unset st field "lessThan" "$lt" value rfl h),
   congrArg BuilderState.filter (byField_unset st field "lessThanOrEqual" "$lte" value rfl h),
   congrArg BuilderState.filter (byField_unset st field "in" "$in" value rfl h),
   congrArg BuilderState.filter (byField_unset st field "notIn" "$nin" value rfl h),
   congrArg BuilderState.filter (byField_unset st field "exists" "$exists" value rfl h),
   congrArg BuilderState.filter (byField_unset st field "regex" "$regex" value rfl h),
   congrArg BuilderState.filter (byField_unset st field "text" "$text" value rfl h)⟩

/-- Witness for C1 at a concrete input: the `equal` and `text` shapes on a
fresh builder. -/
theorem C1_byField_operator_tokens_witness :
    getKey emptyBuilder.filter "age" = none
    ∧ (QueryBuilder.byField emptyBuilder "age" "equal" (.vStr "x")).filter
        = [("age", Value.vDoc [("$eq", Value.vStr "x")])]
    ∧ (QueryBuilder.byField emptyBuilder "age" "text" (.vStr "x")).filter
        = [("age",
            Value.vDoc [("$text", Value.vDoc [("$search", Value.vStr "x")])])] :=
  ⟨rfl,
   (C1_byField_operator_tokens emptyBuilder "age" (.vStr "x") rfl).1,
   (C1_byField_operator_tokens emptyBuilder "age"
     (.vStr "x") rfl).2.2.2.2.2.2.2.2.2.2⟩

/-- Claim C2: two `byField` calls on the same field with distinct supported
operators merge into one operator sub-document holding both native tokens
with their respective (shaped) values; in particular the
`greaterThanOrEqual`/`lessThan` scenario on `age` yields
`{ age: { $gte: 18, $lt: 65 } }`. -/
theorem C2_byField_merges_distinct_operators (st : BuilderState)
    (field op1 op2 t1 t2 : String) (v1 v2 : Value)
    (h : getKey st.filter field = none)
    (hop1 : QueryBuilder.mongoOperatorMap op1 = some t1)
    (hop2 : QueryBuilder.mongoOperatorMap op2 = some t2)
    (hne : op1 ≠ op2) :
    (QueryBuilder.byField (QueryBuilder.byField st field op1 v1)
        field op2 v2).filter
      = setKey st.filter field
          (.vDoc [(t1, QueryBuilder.refineValue op1 v1),
                  (t2, QueryBuilder.refineValue op2 v2)])
    ∧ (QueryBuilder.byField (QueryBuilder.byField emptyBuilder "age"
          "greaterThanOrEqual" (.vInt 18)) "age" "lessThan" (.vInt 65)).filter
        = [("age", Value.vDoc [("$gte", Value.vInt 18),
                               ("$lt", Value.vInt 65)])] := by
  constructor
  · have htne : t1 ≠ t2 := fun hEq =>
      hne (mongoOperatorMap_injective op1 op2 t1 hop1 (by rw [hEq]; exact hop2))
    have e1 := byField_unset st field op1 t1 v1 hop1 h
    have hget : getKey (QueryBuilder.byField st field op1 v1).filter field
        = some (.vDoc [(t1, QueryBuilder.refineValue op1 v1)]) := by
      rw [e1]; simp
    have e2 := byField_doc (QueryBuilder.byField st field op1 v1) field op2 t2
      v2 [(t1, QueryBuilder.refineValue op1 v1)] hop2 hget
    rw [e2, e1]
    simp [setKey, htne]
  · rfl

/-- Witness for C2 at a concrete input: `equal` then `notEqual` on `name`. -/
theorem C2_byField_merges_distinct_operators_witness :
    (QueryBuilder.byField (QueryBuilder.byField emptyBuilder "name" "equal"
        (.vStr "a")) "name" "notEqual" (.vStr "b")).filter
      = [("name", Value.vDoc [("$eq", Value.vStr "a"),
                              ("$ne", Value.vStr "b")])] :=
  (C2_byField_merges_distinct_operators emptyBuilder "name" "equal" "notEqual"
    "$eq" "$ne" (.vStr "a") (.vStr "b") rfl rfl rfl (by decide)).1

/-- Claim C3 is refuted on the code: `where` initialises the field's slot to
an empty sub-document *before* looking the operator up, so an unrecognized
operator on a previously unconstrained field leaves the filter changed (the
field now maps to `{}`), not byte-for-byte identical. -/
theorem C3_unknown_operator_counterexample :
    (QueryBuilder.byField emptyBuilder "age" "bogus" (.vInt 5)).filter
      = [("age", Value.vDoc [])]
    ∧ emptyBuilder.filter = []
    ∧ ([("age", Value.vDoc [])] : Doc) ≠ [] :=
  ⟨rfl, rfl, by simp⟩

/-- Claim C3 (amended): an unrecognized comparison operator raises no error
and writes no operator token; it leaves the builder completely unchanged
when the field already holds a (truthy) constraint, but on a field with no
prior constraint it creates an empty operator sub-document under the field
key and changes nothing else. -/
theorem C3_unknown_operator_no_token (st : BuilderState) (field op : String)
    (v : Value) (hop : QueryBuilder.mongoOperatorMap op = none) :
    (∀ val, getKey st.filter field = some val → truthy val = true →
        QueryBuilder.byField st field op v = st)
    ∧ (getKey st.filter field = none →
        QueryBuilder.byField st field op v
          = { st with filter := setKey st.filter field (.vDoc []) }) := by
  constructor
  · intro val hval htr
    simp [QueryBuilder.byField, truthyOpt, hval, htr, hop]
  · intro hnone
    simp [QueryBuilder.byField, truthyOpt, hnone, hop]

/-- Witness for the amended C3 at a concrete input: `bogus` on a field that
already holds a `$gte` constraint is a complete no-op. -/
theorem C3_unknown_operator_no_token_witness :
    QueryBuilder.byField
        { filter := [("age", Value.vDoc [("$gte", Value.vInt 18)])] }
        "age" "bogus" (.vInt 5)
      = { filter := [("age", Value.vDoc [("$gte", Value.vInt 18)])] } :=
  (C3_unknown_operator_no_token
      { filter := [("age", Value.vDoc [("$gte", Value.vInt 18)])] }
      "age" "bogus" (.vInt 5) rfl).1
    (.vDoc [("$gte", Value.vInt 18)]) rfl rfl

/-- Claim C4: with a non-empty aggregation pipeline, `execute()` runs only
the pipeline (in exact append order, under the active session) and resolves
with all resulting documents; the operation issued is determined by the
pipeline and session alone — filter, options, sort, projection, pagination
and populated fields have no effect — and `aggregate` appends stages in
call order. -/
theorem C4_execute_aggregation_precedence (st : BuilderState) (c : Collab)
    (hne : st.aggregationPipeline ≠ []) :
    QueryBuilder.issuedOperation st
      = .aggregateOp st.aggregationPipeline st.session
    ∧ (∀ docs, c.aggregateToArray st.aggregationPipeline st.session
        = .promise (.ok docs) → QueryBuilder.execute st c = .ok docs)
    ∧ (∀ st2 : BuilderState,
        st2.aggregationPipeline = st.aggregationPipeline →
        st2.session = st.session →
        QueryBuilder.issuedOperation st2 = QueryBuilder.issuedOperation st)
    ∧ (∀ stage, (QueryBuilder.aggregate st stage).aggregationPipeline
        = st.aggregationPipeline ++ [stage]) := by
  have hpos : 0 < st.aggregationPipeline.length := List.length_pos.mpr hne
  refine ⟨?_, ?_, ?_, ?_⟩
  · simp [QueryBuilder.issuedOperation, hpos]
  · intro docs hagg
    simp [QueryBuilder.execute, QueryBuilder.issuedOperation, hpos, hagg]
  · intro st2 hp hs
    simp [QueryBuilder.issuedOperation, hp, hs, hpos]
  · intro stage
    rfl

/-- A collaborator stub whose aggregation resolves with one document. -/
def stubCollab : Collab where
  countDocuments := fun _ _ => .promise (.ok 0)
  explainCall := fun _ _ _ => .promise (.ok .vNull)
  aggregateToArray := fun _ _ => .promise (.ok [.vInt 1])
  find := fun _ _ _ => .promise (.ok [])

/-- Witness for C4 at a concrete input: one `$match` stage, a stray filter
and options, and the stub collaborator. -/
theorem C4_execute_aggregation_precedence_witness :
    QueryBuilder.execute
        { filter := [("age", Value.vDoc [("$gte", Value.vInt 18)])]
          options := [("limit", Value.vInt 5)]
          aggregationPipeline := [Value.vDoc [("$match", Value.vDoc [])]] }
        stubCollab
      = .ok [.vInt 1] :=
  (C4_execute_aggregation_precedence
      { filter := [("age", Value.vDoc [("$gte", Value.vInt 18)])]
        options := [("limit", Value.vInt 5)]
        aggregationPipeline := [Value.vDoc [("$match", Value.vDoc [])]] }
      stubCollab (List.cons_ne_nil _ _)).2.1 [.vInt 1] rfl

/-- Claim C5: `paginate(p, s)` sets `options.skip = (p - 1) * s` and
`options.limit = s`, overwriting any earlier values; a later `limit(n)`
overwrites only the limit and leaves the paginate-derived skip intact. -/
theorem C5_paginate_then_limit (st : BuilderState) (p s n : Int) :
    getKey (QueryBuilder.paginate st p s).options "skip"
      = some (.vInt ((p - 1) * s))
    ∧ getKey (QueryBuilder.paginate st p s).options "limit"
      = some (.vInt s)
    ∧ getKey (QueryBuilder.limit (QueryBuilder.paginate st p s) n).options
        "limit" = some (.vInt n)
    ∧ getKey (QueryBuilder.limit (QueryBuilder.paginate st p s) n).options
        "skip" = some (.vInt ((p - 1) * s)) := by
  have hns : ("limit" : String) ≠ "skip" := by decide
  have hpag : (QueryBuilder.paginate st p s).options
      = setKey (setKey st.options "skip" (.vInt ((p - 1) * s))) "limit"
          (.vInt s) := rfl
  have hlim : (QueryBuilder.limit (QueryBuilder.paginate st p s) n).options
      = setKey (setKey (setKey st.options "skip" (.vInt ((p - 1) * s)))
          "limit" (.vInt s)) "limit" (.vInt n) := rfl
  refine ⟨?_, ?_, ?_, ?_⟩
  · rw [hpag, getKey_setKey_ne _ _ _ _ hns]
    exact getKey_setKey_self _ _ _
  · rw [hpag]
    exact getKey_setKey_self _ _ _
  · rw [hlim]
    exact getKey_setKey_self _ _ _
  · rw [hlim, setKey_setKey_self, getKey_setKey_ne _ _ _ _ hns]
    exact getKey_setKey_self _ _ _

/-- A collaborator whose every operation returns a promise that later
rejects with a raw driver error. -/
def rejectingCollab : Collab where
  countDocuments := fun _ _ => .promise (.rejected (.raw "boom"))
  explainCall := fun _ _ _ => .promise (.rejected (.raw "boom"))
  aggregateToArray := fun _ _ => .promise (.rejected (.raw "boom"))
  find := fun _ _ _ => .promise (.rejected (.raw "boom"))

/-- A collaborator whose every operation throws synchronously. -/
def throwingCollab : Collab where
  countDocuments := fun _ _ => .syncThrow (.raw "boom")
  explainCall := fun _ _ _ => .syncThrow (.raw "boom")
  aggregateToArray := fun _ _ => .syncThrow (.raw "boom")
  find := fun _ _ _ => .syncThrow (.raw "boom")

/-- Claim C6 is violated by the code: `count`, `explain` and `execute`
return the collaborator's promise from inside `try` without `await`, so an
asynchronous rejection — the normal failure mode of the driver operations —
propagates to the caller unwrapped (first three conjuncts).  Only a
synchronous throw is caught and wrapped with the operation-specific kind
and context (last three conjuncts), which is the behaviour the claim
describes for every failure. -/
theorem C6_async_rejection_unwrapped :
    QueryBuilder.count emptyBuilder rejectingCollab = .rejected (.raw "boom")
    ∧ QueryBuilder.explain emptyBuilder rejectingCollab
        = .rejected (.raw "boom")
    ∧ QueryBuilder.execute emptyBuilder rejectingCollab
        = .rejected (.raw "boom")
    ∧ QueryBuilder.count emptyBuilder throwingCollab
        = .rejected (.mongrid "Count failed: boom" .COUNT_ERROR
            [("filter", .vDoc [])])
    ∧ QueryBuilder.explain emptyBuilder throwingCollab
        = .rejected (.mongrid "Explain failed: boom" .EXPLAIN_ERROR
            [("filter", .vDoc []), ("options", .vDoc [])])
    ∧ QueryBuilder.execute emptyBuilder throwingCollab
        = .rejected (.mongrid "Query execution failed: boom"
            .QUERY_EXECUTION_ERROR
            [("filter", .vDoc []), ("options", .vDoc []),
             ("populatedFields", .vArr [])]) :=
  ⟨rfl, rfl, rfl, rfl, rfl, rfl⟩

/-- A builder state with a filter, options and one populated field. -/
def stPopulated : BuilderState where
  filter := [("age", Value.vDoc [("$gte", Value.vInt 18)])]
  options := [("limit", Value.vInt 5)]
  populatedFields := ["posts"]

/-- A collaborator whose find throws synchronously; everything else
succeeds. -/
def throwingFindCollab : Collab where
  countDocuments := fun _ _ => .promise (.ok 0)
  explainCall := fun _ _ _ => .promise (.ok .vNull)
  aggregateToArray := fun _ _ => .promise (.ok [])
  find := fun _ _ _ => .syncThrow (.raw "db down")

/-- Claim C7 is refuted on the code at a concrete input: `executeOne` fails
with a `QUERY_EXECUTION_ERROR`-coded error whose context holds only the
filter and the options — no `populatedFields` key — even though the
builder's populated-fields list is non-empty.  (The message also shows the
double wrap: `execute`'s own wrapper is wrapped again.) -/
theorem C7_executeOne_context_counterexample :
    QueryBuilder.executeOne stPopulated throwingFindCollab
      = .rejected (.mongrid
          "Query execution failed: Query execution failed: db down"
          .QUERY_EXECUTION_ERROR
          [("filter",
            Value.vDoc [("age", Value.vDoc [("$gte", Value.vInt 18)])]),
           ("options", Value.vDoc [("limit", Value.vInt 5)])])
    ∧ getKey
        [("filter",
          Value.vDoc [("age", Value.vDoc [("$gte", Value.vInt 18)])]),
         ("options", Value.vDoc [("limit", Value.vInt 5)])]
        "populatedFields" = none
    ∧ stPopulated.populatedFields = ["posts"] :=
  ⟨rfl, rfl, rfl⟩

/-- Claim C7 (amended): whenever `executeOne()` fails, the error it raises
carries the `QUERY_EXECUTION_ERROR` kind and a diagnostic context holding
the filter and the options, but not the populated-fields list. -/
theorem C7_executeOne_failure_wrap (st : BuilderState) (c : Collab)
    (e : JsError) (h : QueryBuilder.execute st c = .rejected e) :
    QueryBuilder.executeOne st c
      = .rejected (.mongrid ("Query execution failed: " ++ e.message)
          .QUERY_EXECUTION_ERROR
          [("filter", .vDoc st.filter), ("options", .vDoc st.options)]) := by
  simp [QueryBuilder.executeOne, h]

/-- The error `execute` rejects with at `stPopulated` under
`throwingFindCollab`. -/
def execErrorAtPopulated : JsError :=
  .mongrid "Query execution failed: db down" .QUERY_EXECUTION_ERROR
    [("filter", Value.vDoc [("age", Value.vDoc [("$gte", Value.vInt 18)])]),
     ("options", Value.vDoc [("limit", Value.vInt 5)]),
     ("populatedFields", Value.vArr [Value.vStr "posts"])]

/-- Witness for the amended C7 at a concrete input. -/
theorem C7_executeOne_failure_wrap_witness :
    QueryBuilder.execute stPopulated throwingFindCollab
      = .rejected execErrorAtPopulated
    ∧ QueryBuilder.executeOne stPopulated throwingFindCollab
      = .rejected (.mongrid
          ("Query execution failed: " ++ execErrorAtPopulated.message)
          .QUERY_EXECUTION_ERROR
          [("filter", .vDoc stPopulated.filter),
           ("options", .vDoc stPopulated.options)]) :=
  ⟨rfl,
   C7_executeOne_failure_wrap stPopulated throwingFindCollab
     execErrorAtPopulated rfl⟩

/-- Claim C8: when `execute()` resolves with an empty list, `executeOne()`
resolves with the absent marker rather than raising; when it resolves with
a non-empty list of documents, `executeOne()` resolves with the first
element. -/
theorem C8_executeOne_first_or_null (st : BuilderState) (c : Collab) :
    (QueryBuilder.execute st c = .ok [] →
      QueryBuilder.executeOne st c = .ok none)
    ∧ (∀ (fields : List (String × Value)) (rest : List Value),
        QueryBuilder.execute st c = .ok (Value.vDoc fields :: rest) →
        QueryBuilder.executeOne st c = .ok (some (Value.vDoc fields))) := by
  constructor
  · intro h
    simp [QueryBuilder.executeOne, h]
  · intro fields rest h
    simp [QueryBuilder.executeOne, h, truthy]

/-- A collaborator whose find resolves with two documents. -/
def twoDocFindCollab : Collab where
  countDocuments := fun _ _ => .promise (.ok 0)
  explainCall := fun _ _ _ => .promise (.ok .vNull)
  aggregateToArray := fun _ _ => .promise (.ok [])
  find := fun _ _ _ =>
    .promise (.ok [Value.vDoc [("name", Value.vStr "a")], Value.vDoc []])

/-- Witness for C8 at concrete inputs: an empty result set yields the
absent marker, a two-document result set yields the first document. -/
theorem C8_executeOne_first_or_null_witness :
    QueryBuilder.executeOne emptyBuilder stubCollab = .ok none
    ∧ QueryBuilder.executeOne emptyBuilder twoDocFindCollab
        = .ok (some (Value.vDoc [("name", Value.vStr "a")])) :=
  ⟨(C8_executeOne_first_or_null emptyBuilder stubCollab).1 rfl,
   (C8_executeOne_first_or_null emptyBuilder twoDocFindCollab).2
     [("name", Value.vStr "a")] [Value.vDoc []] rfl⟩

/-- Claim C9: `not(field, subFilter)` assigns `{ $not: subFilter }` directly
as the field's value, replacing any prior `byField` constraint wholesale
(no merge), and leaves every other field untouched. -/
theorem C9_not_overwrites_prior_constraint (st : BuilderState)
    (field : String) (sub : List (String × Value)) (cond : Value)
    (h : getKey st.filter field = some (.vDoc sub)) :
    getKey (QueryBuilder.not st field cond).filter field
      = some (.vDoc [("$not", cond)])
    ∧ (∀ g, g ≠ field →
        getKey (QueryBuilder.not st field cond).filter g
          = getKey st.filter g)
    ∧ (QueryBuilder.not st field cond).filter
      = setKey st.filter field (.vDoc [("$not", cond)]) := by
  refine ⟨getKey_setKey_self _ _ _, ?_, rfl⟩
  intro g hg
  exact getKey_setKey_ne _ _ _ _ (fun hEq => hg hEq.symm)

/-- Witness for C9 at a concrete input: `$not` replaces a prior `$gte`
constraint. -/
theorem C9_not_overwrites_prior_constraint_witness :
    getKey (QueryBuilder.not
        { filter := [("age", Value.vDoc [("$gte", Value.vInt 18)])] }
        "age" (Value.vDoc [("$gt", Value.vInt 5)])).filter "age"
      = some (Value.vDoc [("$not", Value.vDoc [("$gt", Value.vInt 5)])]) :=
  (C9_not_overwrites_prior_constraint
    { filter := [("age", Value.vDoc [("$gte", Value.vInt 18)])] }
    "age" [("$gte", Value.vInt 18)] (Value.vDoc [("$gt", Value.vInt 5)])
    rfl).1

/-- Claim C10: repeating the same supported operator on the same field is
last-write-wins — on any state whose slot for the field is unset or an
operator sub-document, `byField(f, op, v1)` followed by
`byField(f, op, v2)` equals `byField(f, op, v2)` alone. -/
theorem C10_same_operator_last_write_wins (st : BuilderState)
    (field op tok : String) (v1 v2 : Value)
    (hop : QueryBuilder.mongoOperatorMap op = some tok)
    (hf : getKey st.filter field = none
      ∨ ∃ sub, getKey st.filter field = some (.vDoc sub)) :
    QueryBuilder.byField (QueryBuilder.byField st field op v1) field op v2
      = QueryBuilder.byField st field op v2 := by
  rcases hf with h | ⟨sub, h⟩
  · have e1 := byField_unset st field op tok v1 hop h
    have hget : getKey (QueryBuilder.byField st field op v1).filter field
        = some (.vDoc [(tok, QueryBuilder.refineValue op v1)]) := by
      rw [e1]; simp
    have e2 := byField_doc (QueryBuilder.byField st field op v1) field op tok
      v2 [(tok, QueryBuilder.refineValue op v1)] hop hget
    rw [e2, e1, byField_unset st field op tok v2 hop h]
    simp [setKey]
  · have e1 := byField_doc st field op tok v1 sub hop h
    have hget : getKey (QueryBuilder.byField st field op v1).filter field
        = some (.vDoc (setKey sub tok (QueryBuilder.refineValue op v1))) := by
      rw [e1]; simp
    have e2 := byField_doc (QueryBuilder.byField st field op v1) field op tok
      v2 (setKey sub tok (QueryBuilder.refineValue op v1)) hop hget
    rw [e2, e1, byField_doc st field op tok v2 sub hop h]
    simp

/-- Witness for C10 at a concrete input: `greaterThan` twice on a fresh
builder keeps only the second value. -/
theorem C10_same_operator_last_write_wins_witness :
    QueryBuilder.byField
        (QueryBuilder.byField emptyBuilder "age" "greaterThan" (.vInt 1))
        "age" "greaterThan" (.vInt 2)
      = QueryBuilder.byField emptyBuilder "age" "greaterThan" (.vInt 2) :=
  C10_same_operator_last_write_wins emptyBuilder "age" "greaterThan" "$gt"
    (.vInt 1) (.vInt 2) rfl (Or.inl rfl)

end Mongrid
